import Mathlib

/-!
Shallow embedding of `src/jjinsun/asos_weibull_example.py` (Smart-Wind-Atlas).

The script fetches hourly ASOS wind observations, tabulates them, writes a CSV,
fits a two-parameter Weibull distribution to the wind-speed column with the
location parameter fixed at 0, and renders a histogram with the fitted density.

Modelling conventions:
* A table cell is `Option ℚ`: `none` is pandas `NaN` (a missing field, or a
  value that `pd.to_numeric(..., errors="coerce")` could not parse); `some q`
  is a parsed numeric value.  Rationals stand in for the numeric values; the
  floating-point output of the external optimizer is abstracted (see
  `weibull_min_fit`).
* An API item is an association list from field name to cell, mirroring the
  JSON objects in `response.body.items.item`.
* Console output and file writes are reified as an `Effect` trace; `sys.exit`
  and normal completion are reified as an `Outcome`.
-/

namespace AsosWeibull

/-- A single table cell: `none` models pandas `NaN` (missing or unparseable),
`some q` a numeric value. -/
abbrev Cell := Option ℚ

/-- One observation item of the API response body: field name to cell. -/
abbrev Item := List (String × Cell)

/-- The parsed JSON response, as far as the script reads it:
`response.header.resultCode` and `response.body.items.item`. -/
structure ApiResponse where
  resultCode : String
  items : List Item
deriving DecidableEq

/-- The slice of a pandas `DataFrame` the script observes: its column names and
its rows. -/
structure DataFrame where
  columns : List String
  rows : List Item
deriving DecidableEq

/-- `pd.DataFrame()`: the empty table returned when the item list is empty. -/
def DataFrame.emptyDF : DataFrame := ⟨[], []⟩

/-- `df.empty`: true when any axis has length 0. -/
def DataFrame.isEmpty (df : DataFrame) : Bool :=
  df.rows.isEmpty || df.columns.isEmpty

/-- Column access `df[c]`: rows missing the field hold `NaN` (`none`). -/
def DataFrame.col (df : DataFrame) (c : String) : List Cell :=
  df.rows.map (fun r => (r.lookup c).join)

/-- Column names of `pd.DataFrame(items)`: the union of the items' field
names (each name once). -/
def colsOf (items : List Item) : List String :=
  (items.flatMap (fun r => r.map Prod.fst)).dedup

/-- The `tm` (observation time) cell of a row, used as the sort key. -/
def tmOf (r : Item) : Option ℚ := (r.lookup "tm").join

/-- Order on sort keys: missing timestamps (`NaT`) sort last, as in pandas
`sort_values`. -/
def tmLeCell : Option ℚ → Option ℚ → Bool
  | _, none => true
  | none, some _ => false
  | some a, some b => decide (a ≤ b)

/-- Insertion step of the sort on the `tm` column. -/
def insertByTm (r : Item) : List Item → List Item
  | [] => [r]
  | s :: ss => if tmLeCell (tmOf r) (tmOf s) then r :: s :: ss else s :: insertByTm r ss

/-- `df.sort_values("tm")`: sort rows ascending on the `tm` column. -/
def sortByTm : List Item → List Item
  | [] => []
  | r :: rs => insertByTm r (sortByTm rs)

/-- `fetch_asos_hourly` after the HTTP/JSON plumbing: an empty item list yields
the empty table; otherwise the items are tabulated and, when a `tm` column
exists, sorted by observation time.  Numeric coercion of the `ws`, `wd`, `ta`,
`hm` columns is already reflected in the `Cell` type; a non-"00" result code is
only logged, never fatal. -/
def fetch_asos_hourly (resp : ApiResponse) : DataFrame :=
  if resp.items.isEmpty then DataFrame.emptyDF
  else
    let cols := colsOf resp.items
    let rows := if "tm" ∈ cols then sortByTm resp.items else resp.items
    ⟨cols, rows⟩

/-- `ws.dropna()`: keep the non-missing values. -/
def dropna (ws : List Cell) : List ℚ := ws.filterMap id

/-- `ws[ws >= 0]`: keep the non-negative values. -/
def filterNonneg (l : List ℚ) : List ℚ := l.filter (fun x => decide (0 ≤ x))

/-- The usable subsequence of a wind-speed column: non-missing and
non-negative, in order.  This is `dropna` followed by the `>= 0` filter,
exactly the preprocessing both `fit_weibull` and `plot_hist_with_weibull`
perform. -/
def usableOf (ws : List Cell) : List ℚ := filterNonneg (dropna ws)

/-- Failure kinds of the fitting step.  `insufficientData` is the named error
of the spec's taxonomy; the source defines no such error.  `libraryFailure` is
an opaque exception propagating out of the external numerical library. -/
inductive FitErr where
  | insufficientData
  | libraryFailure
deriving DecidableEq

/-- Modelled from the spec: `scipy.stats.weibull_min.fit(data, floc=0)`, an
external library routine whose code is not part of this repository.  Per the
spec's error-handling section, on zero usable samples the reference behavior
"would raise from the underlying numerical library" — modelled as
`libraryFailure`; on a nonempty sample the routine deterministically returns a
triple `(k, loc, c)` with the location pinned at 0, the numeric values being
produced by a floating-point optimization abstracted here as a function `mle`
of the sample. -/
def weibull_min_fit (mle : List ℚ → ℚ × ℚ) (data : List ℚ) : Except FitErr (ℚ × ℚ × ℚ) :=
  match data with
  | [] => .error .libraryFailure
  | _ :: _ =>
    let kc := mle data
    .ok (kc.1, 0, kc.2)

/-- Observable side effects of a run: the two file writes and the console
messages that the claims mention. -/
inductive Effect where
  | writeCsv (name : String)
  | savePng (name : String)
  | logWarnLowSample
  | logErrorDumpHead
  | logWarnNoPlotData
  | logResult (k c : ℚ)
  | logMean
deriving DecidableEq

/-- `fit_weibull(ws)`: drop missing values, drop negatives, warn (advisorily)
when fewer than 100 samples remain, then fit with location fixed at 0 and
return `(k, c)`.  The emitted warnings and the result are returned as a pair. -/
def fit_weibull (mle : List ℚ → ℚ × ℚ) (ws : List Cell) : List Effect × Except FitErr (ℚ × ℚ) :=
  let ws1 := dropna ws
  let ws2 := filterNonneg ws1
  let warns := if ws2.length < 100 then [Effect.logWarnLowSample] else []
  match weibull_min_fit mle ws2 with
  | .error e => (warns, .error e)
  | .ok klc => (warns, .ok (klc.1, klc.2.2))

/-- Everything `plot_hist_with_weibull` puts into the figure it saves. -/
structure PlotSpec where
  histData : List ℚ
  bins : Nat
  density : Bool
  curveLo : ℚ
  curveHi : ℚ
  curvePoints : Nat
  k : ℚ
  c : ℚ
  savedTo : String
  dpi : Nat
deriving DecidableEq

/-- Result of the plotting step: either it only warned (nothing to draw) or it
saved a figure described by a `PlotSpec`. -/
inductive PlotResult where
  | warnedNoData
  | saved (p : PlotSpec)
deriving DecidableEq

/-- `ws.max()` on a nonempty list (the 0 default is never consulted: the
caller guards on nonemptiness). -/
def listMax : List ℚ → ℚ
  | [] => 0
  | x :: xs => xs.foldl max x

/-- `plot_hist_with_weibull(ws, k, c, out_png)`: filter the series as in the
fit; if nothing remains, log a warning and return; otherwise draw a 40-bin
density histogram of the filtered values, overlay the Weibull pdf sampled at
400 points of `[0, max(ws.max(), 15)]`, and save to `out_png` at 150 dpi. -/
def plot_hist_with_weibull (ws : List Cell) (k c : ℚ) (out_png : String) : PlotResult :=
  let ws1 := dropna ws
  let ws2 := filterNonneg ws1
  if ws2.isEmpty then .warnedNoData
  else
    .saved
      { histData := ws2
        bins := 40
        density := true
        curveLo := 0
        curveHi := max (listMax ws2) 15
        curvePoints := 400
        k := k
        c := c
        savedTo := out_png
        dpi := 150 }

/-- CONFIG constant `STATION_ID`. -/
def STATION_ID : String := "108"

/-- CONFIG constant `START_DATE`. -/
def START_DATE : String := "20240101"

/-- CONFIG constant `END_DATE`. -/
def END_DATE : String := "20241231"

/-- The f-string of step 2 of `main`: `asos_{station}_{start}_{end}.csv`. -/
def out_csv_name (station sd ed : String) : String :=
  "asos_" ++ station ++ "_" ++ sd ++ "_" ++ ed ++ ".csv"

/-- The f-string of step 4 of `main`: `asos_{station}_{start}_{end}_weibull.png`. -/
def out_png_name (station sd ed : String) : String :=
  "asos_" ++ station ++ "_" ++ sd ++ "_" ++ ed ++ "_weibull.png"

/-- How a run terminates: an explicit `sys.exit(code)` respectively normal
completion (`exitWith 0`), or an exception propagating uncaught out of `main`. -/
inductive Outcome where
  | exitWith (code : Nat)
  | uncaught (e : FitErr)
deriving DecidableEq

/-- A whole run: the ordered side effects it performed and how it ended. -/
structure RunResult where
  effects : List Effect
  outcome : Outcome
deriving DecidableEq

/-- `main`, sequenced exactly as in the source: fetch; exit 1 on an empty
table; write the CSV; exit 1 (after a diagnostic head dump) when the `ws`
column is absent; fit; print the parameters; plot; print the mean; finish. -/
def main_run (mle : List ℚ → ℚ × ℚ) (station sd ed : String) (resp : ApiResponse) : RunResult :=
  let df := fetch_asos_hourly resp
  if df.isEmpty then { effects := [], outcome := .exitWith 1 }
  else
    let out_csv := out_csv_name station sd ed
    let e1 := [Effect.writeCsv out_csv]
    if "ws" ∈ df.columns then
      let fr := fit_weibull mle (df.col "ws")
      match fr.2 with
      | .error e => { effects := e1 ++ fr.1, outcome := .uncaught e }
      | .ok kc =>
        let out_png := out_png_name station sd ed
        let pr := plot_hist_with_weibull (df.col "ws") kc.1 kc.2 out_png
        let pe :=
          match pr with
          | .warnedNoData => [Effect.logWarnNoPlotData]
          | .saved p => [Effect.savePng p.savedTo]
        { effects := e1 ++ fr.1 ++ [Effect.logResult kc.1 kc.2] ++ pe ++ [Effect.logMean]
          outcome := .exitWith 0 }
    else
      { effects := e1 ++ [Effect.logErrorDumpHead], outcome := .exitWith 1 }

end AsosWeibull

namespace AsosWeibull

lemma dropna_map_some (l : List ℚ) : dropna (l.map some) = l := by
  simp [dropna]

lemma filterNonneg_idem (l : List ℚ) : filterNonneg (filterNonneg l) = filterNonneg l := by
  simp [filterNonneg, List.filter_filter]

lemma usableOf_map_some_usableOf (ws : List Cell) :
    usableOf ((usableOf ws).map some) = usableOf ws := by
  rw [usableOf, dropna_map_some, usableOf, filterNonneg_idem]

lemma fit_weibull_snd_of_usable_nil (mle : List ℚ → ℚ × ℚ) (ws : List Cell)
    (h : usableOf ws = []) :
    (fit_weibull mle ws).2 = Except.error FitErr.libraryFailure := by
  have h2 : filterNonneg (dropna ws) = [] := h
  simp [fit_weibull, h2, weibull_min_fit]

lemma fit_weibull_snd_of_usable_cons (mle : List ℚ → ℚ × ℚ) (ws : List Cell)
    (x : ℚ) (xs : List ℚ) (h : usableOf ws = x :: xs) :
    (fit_weibull mle ws).2 = Except.ok (mle (x :: xs)) := by
  have h2 : filterNonneg (dropna ws) = x :: xs := h
  simp [fit_weibull, h2, weibull_min_fit]

end AsosWeibull

namespace AsosWeibull

/-- Claim C1, counterexample: on a sample whose usable subsequence is empty,
`fit_weibull` does fail, but the failure is the opaque error propagating from
the numerical library, not a named `InsufficientDataError` — the source defines
no such error and has no guard before the library call. -/
theorem fit_weibull_empty_not_insufficient :
    (fit_weibull (fun _ => ((1 : ℚ), (1 : ℚ))) [none]).2 =
        Except.error FitErr.libraryFailure ∧
      (Except.error FitErr.libraryFailure : Except FitErr (ℚ × ℚ)) ≠
        Except.error FitErr.insufficientData := by
  refine ⟨rfl, ?_⟩
  intro hcon
  simp at hcon

/-- Claim C1, amended: for every input sample whose usable subsequence
(present and non-negative entries) is empty, `fit_weibull` fails by
propagating the underlying numerical library's opaque error — it returns no
numeric parameters and falls back to no defaults — rather than raising a named
`InsufficientDataError`. -/
theorem fit_weibull_empty_raises_library_error (mle : List ℚ → ℚ × ℚ) (ws : List Cell)
    (h : usableOf ws = []) :
    (fit_weibull mle ws).2 = Except.error FitErr.libraryFailure :=
  fit_weibull_snd_of_usable_nil mle ws h

/-- Witness for the amended C1 at the concrete sample `[none, some (-1)]`. -/
theorem fit_weibull_empty_raises_library_error_witness :
    usableOf [none, some (-1)] = [] ∧
      (fit_weibull (fun _ => ((1 : ℚ), (1 : ℚ))) [none, some (-1)]).2 =
        Except.error FitErr.libraryFailure :=
  ⟨by decide, fit_weibull_empty_raises_library_error _ _ (by decide)⟩

/-- Claim C3: the fit depends only on the non-missing, non-negative entries —
fitting a mixed sample equals fitting the pre-stripped sample — and the count
entering the low-sample check is the count of valid entries only. -/
theorem fit_weibull_depends_only_on_usable (mle : List ℚ → ℚ × ℚ) (ws : List Cell) :
    fit_weibull mle ws = fit_weibull mle ((usableOf ws).map some) ∧
      (fit_weibull mle ws).1 =
        (if (usableOf ws).length < 100 then [Effect.logWarnLowSample] else []) := by
  have h : filterNonneg (dropna ((usableOf ws).map some)) = filterNonneg (dropna ws) :=
    usableOf_map_some_usableOf ws
  constructor
  · simp only [fit_weibull]
    rw [h]
  · simp only [fit_weibull, usableOf]
    split <;> rfl

/-- Claim C4: with 0 < n < 100 usable samples, `fit_weibull` only emits the
advisory low-sample warning and still returns exactly the parameters the
fitting routine computes from the usable sample — no error, no altered
result. -/
theorem fit_weibull_low_sample_advisory_only (mle : List ℚ → ℚ × ℚ) (ws : List Cell)
    (h0 : 0 < (usableOf ws).length) (h1 : (usableOf ws).length < 100) :
    fit_weibull mle ws = ([Effect.logWarnLowSample], Except.ok (mle (usableOf ws))) := by
  obtain ⟨x, xs, hx⟩ : ∃ x xs, usableOf ws = x :: xs := by
    cases hcase : usableOf ws with
    | nil => rw [hcase] at h0; simp at h0
    | cons a l => exact ⟨a, l, rfl⟩
  have hx2 : filterNonneg (dropna ws) = x :: xs := hx
  rw [hx] at h1 ⊢
  simp only [List.length_cons] at h1
  simp [fit_weibull, hx2, weibull_min_fit]
  omega

/-- Witness for C4 at the concrete sample `[some 5]` (one usable entry). -/
theorem fit_weibull_low_sample_advisory_only_witness :
    0 < (usableOf [some 5]).length ∧ (usableOf [some 5]).length < 100 ∧
      fit_weibull (fun _ => ((2 : ℚ), (3 : ℚ))) [some 5] =
        ([Effect.logWarnLowSample], Except.ok ((2 : ℚ), (3 : ℚ))) :=
  ⟨by decide, by decide,
    fit_weibull_low_sample_advisory_only _ _ (by decide) (by decide)⟩

/-- Claim C6: `fit_weibull` is deterministic — it reads no state besides its
argument (the external optimizer is itself a fixed deterministic routine,
abstracted as `mle`), so two runs on the same input sample yield identical
`(k, c)`. -/
theorem fit_weibull_deterministic (mle : List ℚ → ℚ × ℚ) (wsA wsB : List Cell)
    (h : wsA = wsB) : fit_weibull mle wsA = fit_weibull mle wsB := by
  rw [h]

/-- Witness for C6 on a fixed 150-entry wind-speed fixture. -/
theorem fit_weibull_deterministic_witness :
    ((List.range 150).map (fun i => (some ((i : ℚ) / 10) : Cell))) =
        ((List.range 150).map (fun i => (some ((i : ℚ) / 10) : Cell))) ∧
      fit_weibull (fun _ => ((2 : ℚ), (3 : ℚ)))
          ((List.range 150).map (fun i => (some ((i : ℚ) / 10) : Cell))) =
        fit_weibull (fun _ => ((2 : ℚ), (3 : ℚ)))
          ((List.range 150).map (fun i => (some ((i : ℚ) / 10) : Cell))) :=
  ⟨rfl, fit_weibull_deterministic _ _ _ rfl⟩

end AsosWeibull

namespace AsosWeibull

/-- Claim C7: whenever there is data to draw, the plotting step saves a figure
holding a 40-bin density histogram of the filtered wind speeds, overlaid with
the fitted Weibull density sampled on `[0, max(observed_max, 15)]`, written as
a raster image (150 dpi) to the given path. -/
theorem plot_saves_40bin_density_with_curve (ws : List Cell) (k c : ℚ) (png : String)
    (h : usableOf ws ≠ []) :
    plot_hist_with_weibull ws k c png =
      PlotResult.saved
        { histData := usableOf ws
          bins := 40
          density := true
          curveLo := 0
          curveHi := max (listMax (usableOf ws)) 15
          curvePoints := 400
          k := k
          c := c
          savedTo := png
          dpi := 150 } := by
  have h2 : filterNonneg (dropna ws) ≠ [] := h
  simp [plot_hist_with_weibull, usableOf, h2]

/-- Witness for C7 at the concrete series `[some 5]`. -/
theorem plot_saves_40bin_density_with_curve_witness :
    usableOf [some 5] ≠ [] ∧
      plot_hist_with_weibull [some 5] 2 3 "a.png" =
        PlotResult.saved
          { histData := usableOf [some 5]
            bins := 40
            density := true
            curveLo := 0
            curveHi := max (listMax (usableOf [some 5])) 15
            curvePoints := 400
            k := 2
            c := 3
            savedTo := "a.png"
            dpi := 150 } :=
  ⟨by decide, plot_saves_40bin_density_with_curve _ _ _ _ (by decide)⟩

/-- Claim C8: with the configured station "108" and period 20240101–20241231,
the CSV is named exactly `asos_108_20240101_20241231.csv` and the image exactly
`asos_108_20240101_20241231_weibull.png`. -/
theorem output_file_names :
    out_csv_name STATION_ID START_DATE END_DATE = "asos_108_20240101_20241231.csv" ∧
      out_png_name STATION_ID START_DATE END_DATE = "asos_108_20240101_20241231_weibull.png" :=
  ⟨rfl, rfl⟩

/-- Claim C9: when the wind-speed series has no usable entry, the plotting
step only logs a warning and returns — it raises nothing and saves no file,
even though a filename was supplied. -/
theorem plot_empty_series_warns_only (ws : List Cell) (k c : ℚ) (png : String)
    (h : usableOf ws = []) :
    plot_hist_with_weibull ws k c png = PlotResult.warnedNoData := by
  have h2 : filterNonneg (dropna ws) = [] := h
  simp [plot_hist_with_weibull, h2]

/-- Witness for C9 at the concrete series `[some (-2), none]`. -/
theorem plot_empty_series_warns_only_witness :
    usableOf [some (-2), none] = [] ∧
      plot_hist_with_weibull [some (-2), none] 1 1 "p.png" = PlotResult.warnedNoData :=
  ⟨by decide, plot_empty_series_warns_only _ _ _ _ (by decide)⟩

end AsosWeibull

namespace AsosWeibull

lemma insertByTm_ne_nil (r : Item) (l : List Item) : insertByTm r l ≠ [] := by
  cases l with
  | nil => simp [insertByTm]
  | cons s ss =>
    simp only [insertByTm]
    split <;> simp

lemma sortByTm_cons_ne_nil (r : Item) (rs : List Item) : sortByTm (r :: rs) ≠ [] := by
  simp only [sortByTm]
  exact insertByTm_ne_nil _ _

lemma fetch_nil (resp : ApiResponse) (hi : resp.items = []) :
    fetch_asos_hourly resp = DataFrame.emptyDF := by
  simp [fetch_asos_hourly, hi]

lemma fetch_cons (resp : ApiResponse) (r : Item) (rs : List Item) (hi : resp.items = r :: rs) :
    fetch_asos_hourly resp =
      ⟨colsOf (r :: rs), if "tm" ∈ colsOf (r :: rs) then sortByTm (r :: rs) else r :: rs⟩ := by
  simp [fetch_asos_hourly, hi]

lemma fetch_cons_rows_ne_nil (r : Item) (rs : List Item) :
    (if "tm" ∈ colsOf (r :: rs) then sortByTm (r :: rs) else r :: rs) ≠ [] := by
  split
  · exact sortByTm_cons_ne_nil r rs
  · exact List.cons_ne_nil r rs

lemma fetch_emptyDF_iff (resp : ApiResponse) :
    fetch_asos_hourly resp = DataFrame.emptyDF ↔ resp.items = [] := by
  cases hi : resp.items with
  | nil => simp [fetch_nil resp hi, hi]
  | cons r rs =>
    rw [fetch_cons resp r rs hi]
    constructor
    · intro hcon
      have hr := congrArg DataFrame.rows hcon
      exact absurd hr (fetch_cons_rows_ne_nil r rs)
    · intro hcon
      exact absurd hcon (List.cons_ne_nil r rs)

lemma main_run_nil_items (mle : List ℚ → ℚ × ℚ) (st sd ed : String) (resp : ApiResponse)
    (hi : resp.items = []) :
    main_run mle st sd ed resp = { effects := [], outcome := Outcome.exitWith 1 } := by
  have hf := fetch_nil resp hi
  simp [main_run, hf, DataFrame.emptyDF, DataFrame.isEmpty]

lemma main_run_cols_nil (mle : List ℚ → ℚ × ℚ) (st sd ed : String) (resp : ApiResponse)
    (r : Item) (rs : List Item) (hi : resp.items = r :: rs)
    (hcols : colsOf (r :: rs) = []) :
    main_run mle st sd ed resp = { effects := [], outcome := Outcome.exitWith 1 } := by
  have hf := fetch_cons resp r rs hi
  simp [main_run, hf, DataFrame.isEmpty, hcols]

lemma main_run_no_ws (mle : List ℚ → ℚ × ℚ) (st sd ed : String) (resp : ApiResponse)
    (r : Item) (rs : List Item) (hi : resp.items = r :: rs)
    (hcols : colsOf (r :: rs) ≠ []) (hws : "ws" ∉ colsOf (r :: rs)) :
    main_run mle st sd ed resp =
      { effects := [Effect.writeCsv (out_csv_name st sd ed), Effect.logErrorDumpHead]
        outcome := Outcome.exitWith 1 } := by
  have hf := fetch_cons resp r rs hi
  have hrows := fetch_cons_rows_ne_nil r rs
  simp [main_run, hf, DataFrame.isEmpty, hrows, hcols, hws]

lemma main_run_outcome_uncaught (mle : List ℚ → ℚ × ℚ) (st sd ed : String)
    (resp : ApiResponse) (r : Item) (rs : List Item) (hi : resp.items = r :: rs)
    (hws : "ws" ∈ colsOf (r :: rs))
    (hu : usableOf ((fetch_asos_hourly resp).col "ws") = []) :
    (main_run mle st sd ed resp).outcome = Outcome.uncaught FitErr.libraryFailure := by
  have hf := fetch_cons resp r rs hi
  have hrows := fetch_cons_rows_ne_nil r rs
  have hcols : colsOf (r :: rs) ≠ [] := List.ne_nil_of_mem hws
  have hfit := fit_weibull_snd_of_usable_nil mle ((fetch_asos_hourly resp).col "ws") hu
  rw [hf] at hfit
  simp [main_run, hf, DataFrame.isEmpty, hrows, hcols, hws, hfit]

lemma main_run_outcome_ok (mle : List ℚ → ℚ × ℚ) (st sd ed : String)
    (resp : ApiResponse) (r : Item) (rs : List Item) (hi : resp.items = r :: rs)
    (hws : "ws" ∈ colsOf (r :: rs)) (x : ℚ) (xs : List ℚ)
    (hu : usableOf ((fetch_asos_hourly resp).col "ws") = x :: xs) :
    (main_run mle st sd ed resp).outcome = Outcome.exitWith 0 := by
  have hf := fetch_cons resp r rs hi
  have hrows := fetch_cons_rows_ne_nil r rs
  have hcols : colsOf (r :: rs) ≠ [] := List.ne_nil_of_mem hws
  have hfit := fit_weibull_snd_of_usable_cons mle ((fetch_asos_hourly resp).col "ws") x xs hu
  rw [hf] at hfit
  simp [main_run, hf, DataFrame.isEmpty, hrows, hcols, hws, hfit]

/-- Claim C5: the run terminates via `sys.exit(1)` exactly when the API item
list is empty (then the fetch step returned the empty table) or when the `ws`
column is absent from the tabulated response, and it terminates normally
(status 0) exactly when neither holds and the fit step returns (which in this
model requires a nonempty usable wind-speed subsequence — an all-missing or
all-negative `ws` column instead escalates the library's failure). -/
theorem main_exit_codes (mle : List ℚ → ℚ × ℚ) (st sd ed : String) (resp : ApiResponse) :
    ((main_run mle st sd ed resp).outcome = Outcome.exitWith 1 ↔
        (resp.items = [] ∨ "ws" ∉ colsOf resp.items)) ∧
      ((main_run mle st sd ed resp).outcome = Outcome.exitWith 0 ↔
        (resp.items ≠ [] ∧ "ws" ∈ colsOf resp.items ∧
          usableOf ((fetch_asos_hourly resp).col "ws") ≠ [])) ∧
      (fetch_asos_hourly resp = DataFrame.emptyDF ↔ resp.items = []) := by
  have hfe := fetch_emptyDF_iff resp
  cases hi : resp.items with
  | nil =>
    rw [hi] at hfe
    have ho := main_run_nil_items mle st sd ed resp hi
    refine ⟨?_, ?_, hfe⟩ <;> simp [ho]
  | cons r rs =>
    rw [hi] at hfe
    by_cases hws : "ws" ∈ colsOf (r :: rs)
    · cases hu : usableOf ((fetch_asos_hourly resp).col "ws") with
      | nil =>
        have ho := main_run_outcome_uncaught mle st sd ed resp r rs hi hws hu
        refine ⟨?_, ?_, hfe⟩ <;> simp [ho, hws, hu]
      | cons x xs =>
        have ho := main_run_outcome_ok mle st sd ed resp r rs hi hws x xs hu
        refine ⟨?_, ?_, hfe⟩ <;> simp [ho, hws, hu]
    · by_cases hcols : colsOf (r :: rs) = []
      · have ho := main_run_cols_nil mle st sd ed resp r rs hi hcols
        have hws2 : "ws" ∉ colsOf (r :: rs) := by
          rw [hcols]
          simp
        refine ⟨?_, ?_, hfe⟩ <;> simp [ho, hws2]
      · have ho := main_run_no_ws mle st sd ed resp r rs hi hcols hws
        refine ⟨?_, ?_, hfe⟩ <;> simp [ho, hws]

/-- Claim C10: whenever the run reaches the wind-speed-column check and exits
with status 1 because `ws` is absent, the CSV write has already happened — the
effect trace of such a run is exactly the CSV write followed by the diagnostic
dump, with no cleanup. -/
theorem csv_written_before_ws_check (mle : List ℚ → ℚ × ℚ) (st sd ed : String)
    (resp : ApiResponse) (h1 : resp.items ≠ []) (h2 : colsOf resp.items ≠ [])
    (h3 : "ws" ∉ colsOf resp.items) :
    (main_run mle st sd ed resp).effects =
        [Effect.writeCsv (out_csv_name st sd ed), Effect.logErrorDumpHead] ∧
      (main_run mle st sd ed resp).outcome = Outcome.exitWith 1 := by
  obtain ⟨r, rs, hi⟩ : ∃ r rs, resp.items = r :: rs := by
    cases hcase : resp.items with
    | nil => exact absurd hcase h1
    | cons a l => exact ⟨a, l, rfl⟩
  rw [hi] at h2 h3
  have ho := main_run_no_ws mle st sd ed resp r rs hi h2 h3
  rw [ho]
  exact ⟨rfl, rfl⟩

/-- Witness for C10: a one-item response with a `tm` field but no `ws` field. -/
theorem csv_written_before_ws_check_witness :
    (⟨"00", [[("tm", some 1)]]⟩ : ApiResponse).items ≠ [] ∧
      colsOf (⟨"00", [[("tm", some 1)]]⟩ : ApiResponse).items ≠ [] ∧
      "ws" ∉ colsOf (⟨"00", [[("tm", some 1)]]⟩ : ApiResponse).items ∧
      ((main_run (fun _ => ((1 : ℚ), (1 : ℚ))) "108" "20240101" "20241231"
            ⟨"00", [[("tm", some 1)]]⟩).effects =
          [Effect.writeCsv (out_csv_name "108" "20240101" "20241231"),
            Effect.logErrorDumpHead] ∧
        (main_run (fun _ => ((1 : ℚ), (1 : ℚ))) "108" "20240101" "20241231"
            ⟨"00", [[("tm", some 1)]]⟩).outcome = Outcome.exitWith 1) :=
  ⟨by decide, by decide, by decide,
    csv_written_before_ws_check _ _ _ _ _ (by decide) (by decide) (by decide)⟩

end AsosWeibull
